import Mathlib

/-!
Shallow embedding of the core logic of `src/index.js` (Website Buddy Actions):
the GitHub file read/write handlers (`/github/get-file`, `/github/put-file`)
and the FTP bulk-deploy handlers (`/deploy/upload-ftp`, `/deploy/upload-zip`).

External systems (the GitHub content store, the FTP server, the zip parser)
are modelled as parameters holding the outcome of each external call; the
handlers' own control flow is translated statement by statement. Base64
transport encoding/decoding (lines 50, 75 of the source) is a bijection
applied at the store boundary; it is modelled as the identity on the logical
content, since no handler inspects the encoded form.
-/

namespace WebsiteBuddyActions

/-- Result object of `octokit.repos.getContent`: either a single file object
(which carries top-level `sha` and `content` properties) or a directory
listing (a JS array, which has neither property on itself). -/
inductive GetContentData
  | fileObj (sha : String) (content : String)
  | dirListing (entries : List String)
deriving DecidableEq

/-- JS `"sha" in data ? data.sha : undefined` on a getContent result:
a file object owns a `sha` property, an array does not. -/
def jsShaProp : GetContentData → Option String
  | GetContentData.fileObj s _ => some s
  | GetContentData.dirListing _ => none

/-- JS `Array.isArray(data)` on a getContent result. -/
def isArrayData : GetContentData → Bool
  | GetContentData.fileObj _ _ => false
  | GetContentData.dirListing _ => true

/-- JS `"content" in data ? data.content : undefined` on a getContent result
(content modelled as the decoded text, see the file header). -/
def jsContentProp : GetContentData → Option String
  | GetContentData.fileObj _ c => some c
  | GetContentData.dirListing _ => none

/-- Boundary result of `POST /github/get-file` (lines 43-56): a 200 text
body, a 400 json error, or a 500 json error. -/
inductive GetFileResponse
  | ok (body : String)
  | badRequest (msg : String)
  | failure (msg : String)
deriving DecidableEq

/-- HTTP status code of a get-file boundary result. -/
def GetFileResponse.status : GetFileResponse → Nat
  | GetFileResponse.ok _ => 200
  | GetFileResponse.badRequest _ => 400
  | GetFileResponse.failure _ => 500

/-- Handler of `POST /github/get-file` (lines 43-56). `store` is the outcome
of the `octokit.repos.getContent({owner, repo, path, ref})` call: `.error m`
when the call throws with message `m` (a missing path throws), `.ok d`
otherwise. The `ref` argument is forwarded to the store and does not
otherwise influence the handler. -/
def getFileHandler (owner repo path : String) (ref : Option String)
    (store : Except String GetContentData) : GetFileResponse :=
  if owner = "" ∨ repo = "" ∨ path = "" then
    GetFileResponse.badRequest "owner, repo, and path are required"
  else
    match store with
    | Except.error m => GetFileResponse.failure m
    | Except.ok d =>
      match jsContentProp d with
      | none => GetFileResponse.badRequest "Not a file"
      | some c => GetFileResponse.ok c

/-- Argument object of `octokit.repos.createOrUpdateFileContents` (line 77).
`content` holds the logical content (base64 transport encoding modelled as
the identity, see the file header). -/
structure CreateOrUpdateArgs where
  owner : String
  repo : String
  path : String
  message : String
  content : String
  sha : Option String
  branch : Option String
deriving DecidableEq

/-- `result.data` of a successful createOrUpdateFileContents call:
the handler only reads `result.data.content?.path` (line 79). -/
structure CommitData where
  contentPath : Option String
deriving DecidableEq

/-- Boundary result of `POST /github/put-file` (lines 59-83). The success
json also carries the constants `ok: true` and `committed: true`. -/
inductive PutResponse
  | success (path : String) (branch : Option String)
  | badRequest (msg : String)
  | failure (msg : String)
deriving DecidableEq

/-- HTTP status code of a put-file boundary result. -/
def PutResponse.status : PutResponse → Nat
  | PutResponse.success _ _ => 200
  | PutResponse.badRequest _ => 400
  | PutResponse.failure _ => 500

/-- The existence-probe block of put-file (lines 67-74): `sha` starts
undefined; line 70 copies `get.data.sha` when the property exists; line 71
clears it again when the property exists and the data is an array (dead in
practice, as an array owns no `sha` property); the `catch` block (lines
72-74) swallows every probe error and leaves `sha` undefined. -/
def probeSha : Except String GetContentData → Option String
  | Except.error _ => none
  | Except.ok d =>
    let sha : Option String := none
    let sha := match jsShaProp d with
      | some s => some s
      | none => sha
    let sha := if (jsShaProp d).isSome && isArrayData d then none else sha
    sha

/-- JS `a || b` for optional strings: `undefined` and `""` are falsy. -/
def jsOr (a : Option String) (b : Option String) : Option String :=
  match a with
  | some s => if s = "" then b else some s
  | none => b

/-- The createOrUpdateFileContents argument object built by put-file
(lines 76-78) from the request fields and the probe outcome. -/
def putFileSubmission (owner repo path content message : String)
    (branch : Option String) (probe : Except String GetContentData) :
    CreateOrUpdateArgs :=
  { owner := owner, repo := repo, path := path, message := message,
    content := content, sha := probeSha probe, branch := branch }

/-- Handler of `POST /github/put-file` (lines 59-83). `probe` is the outcome
of the existence-check `getContent` call (line 69); `commit` the outcome of
the `createOrUpdateFileContents` call. Returns the boundary result together
with the argument object submitted to the store (`none` when validation
failed before any submission). -/
def putFileHandler (owner repo path content message : String)
    (branch : Option String) (probe : Except String GetContentData)
    (commit : Except String CommitData) :
    PutResponse × Option CreateOrUpdateArgs :=
  if owner = "" ∨ repo = "" ∨ path = "" ∨ content = "" ∨ message = "" then
    (PutResponse.badRequest "owner, repo, path, content, message are required", none)
  else
    let args := putFileSubmission owner repo path content message branch probe
    match commit with
    | Except.error m => (PutResponse.failure m, some args)
    | Except.ok result =>
      (PutResponse.success path (jsOr branch result.contentPath), some args)

/-! ## FTP deploy handlers -/

/-- One observable call on the FTP client: `client.access` (connect),
`client.ensureDir`, `client.uploadFrom`, `client.close`. -/
inductive FtpEvent
  | connect
  | ensureDir (path : String)
  | upload (path : String)
  | close
deriving DecidableEq

/-- Outcome oracle for the FTP server: for each call, `none` means the call
succeeds, `some m` means it throws with message `m`. -/
structure FtpEnv where
  connect : Option String
  ensureDir : String → Option String
  upload : String → Option String

/-- JS `s.split("/")` on a character-list representation: cut the string at
every `/`, keeping empty pieces (JS semantics for a one-character
separator). `acc` holds the characters of the current piece, reversed. -/
def splitOnSlashAux : List Char → List Char → List String
  | [], acc => [String.mk acc.reverse]
  | c :: rest, acc =>
    if c = '/' then String.mk acc.reverse :: splitOnSlashAux rest []
    else splitOnSlashAux rest (c :: acc)

/-- JS `remotePath.split("/").filter(Boolean)` (line 87): only the empty
string is falsy among the pieces. -/
def splitParts (remotePath : String) : List String :=
  (splitOnSlashAux remotePath.toList []).filter (fun s => s ≠ "")

/-- The `dirs` of `uploadBuffer` (line 88): all path components but the last. -/
def dirsOf (remotePath : String) : List String :=
  (splitParts remotePath).dropLast

/-- The directory path passed to `client.ensureDir` (line 90):
`"/" + dirs.join("/")`. -/
def dirPathOf (remotePath : String) : String :=
  "/" ++ String.intercalate "/" (dirsOf remotePath)

/-- The `uploadBuffer` helper (lines 86-93): ensure the parent directory
chain when there is one, then upload. Returns the trace of attempted FTP
calls and `some m` when the first failing call throws with message `m`. -/
def uploadBuffer (env : FtpEnv) (remotePath : String) (buffer : List Nat) :
    List FtpEvent × Option String :=
  if (dirsOf remotePath).isEmpty then
    ([FtpEvent.upload remotePath], env.upload remotePath)
  else
    match env.ensureDir (dirPathOf remotePath) with
    | some m => ([FtpEvent.ensureDir (dirPathOf remotePath)], some m)
    | none =>
      ([FtpEvent.ensureDir (dirPathOf remotePath), FtpEvent.upload remotePath],
       env.upload remotePath)

/-- One entry of `zip.getEntries()`: name, directory flag, and the bytes
`getData()` would return. -/
structure ZipEntry where
  entryName : String
  isDirectory : Bool
  data : List Nat
deriving DecidableEq

/-- JS `s.replace(/^\/+/, "")`: drop every leading slash. -/
def stripLeadingSlashes (s : String) : String :=
  String.mk (s.toList.dropWhile (fun c => c = '/'))

/-- The remote path computed for a zip entry (line 137):
`basePath + "/" + e.entryName.replace(/^\/+/, "")`. -/
def remotePathOf (basePath entryName : String) : String :=
  basePath ++ "/" ++ stripLeadingSlashes entryName

/-- The entry loop of upload-zip (lines 135-139): skip directories, upload
the rest in order, stop at the first throw. Returns the FTP call trace and
the first failure message, if any. -/
def uploadEntries (env : FtpEnv) (basePath : String) :
    List ZipEntry → List FtpEvent × Option String
  | [] => ([], none)
  | e :: rest =>
    if e.isDirectory then uploadEntries env basePath rest
    else
      match uploadBuffer env (remotePathOf basePath e.entryName) e.data with
      | (t, some m) => (t, some m)
      | (t, none) =>
        let r := uploadEntries env basePath rest
        (t ++ r.1, r.2)

/-- Boundary result of `POST /deploy/upload-ftp` (lines 96-116):
`{ok, uploaded: remotePath}` on success. -/
inductive SingleDeployResponse
  | ok (uploaded : String)
  | badRequest (msg : String)
  | failure (msg : String)
deriving DecidableEq

/-- HTTP status code of an upload-ftp boundary result. -/
def SingleDeployResponse.status : SingleDeployResponse → Nat
  | SingleDeployResponse.ok _ => 200
  | SingleDeployResponse.badRequest _ => 400
  | SingleDeployResponse.failure _ => 500

/-- Boundary result of `POST /deploy/upload-zip` (lines 119-147):
`{ok, uploaded: entries.length}` on success. -/
inductive ZipDeployResponse
  | ok (uploaded : Nat)
  | badRequest (msg : String)
  | failure (msg : String)
deriving DecidableEq

/-- HTTP status code of an upload-zip boundary result. -/
def ZipDeployResponse.status : ZipDeployResponse → Nat
  | ZipDeployResponse.ok _ => 200
  | ZipDeployResponse.badRequest _ => 400
  | ZipDeployResponse.failure _ => 500

/-- Handler of `POST /deploy/upload-ftp` (lines 96-116). `file` is the
multipart payload (`none` when the field is missing), `remotePath` the
optional body field (line 100 defaults it to `"/htdocs/index.html"`).
The client is created before the `try` block and `client.close()` runs in
`finally`, so every exit path ends with a close event. -/
def uploadFtpHandler (env : FtpEnv) (file : Option (List Nat))
    (remotePath : Option String) : SingleDeployResponse × List FtpEvent :=
  match file with
  | none =>
    (SingleDeployResponse.badRequest "No file. Use field name 'file'.",
     [FtpEvent.close])
  | some buf =>
    let rp := remotePath.getD "/htdocs/index.html"
    match env.connect with
    | some m => (SingleDeployResponse.failure m, [FtpEvent.connect, FtpEvent.close])
    | none =>
      match uploadBuffer env rp buf with
      | (t, some m) =>
        (SingleDeployResponse.failure m, FtpEvent.connect :: t ++ [FtpEvent.close])
      | (t, none) =>
        (SingleDeployResponse.ok rp, FtpEvent.connect :: t ++ [FtpEvent.close])

/-- Handler of `POST /deploy/upload-zip` (lines 119-147). `file` is the
multipart payload, `parseZip` the outcome of
`new AdmZip(req.file.buffer); zip.getEntries()` (`.error m` when the parse
throws with message `m`), `basePath` the optional body field (line 123
defaults it to `"/htdocs"`). The source connects (line 125) before parsing
(line 132); a success responds `uploaded: entries.length` (line 141); the
`finally` closes the client on every path. -/
def uploadZipHandler (env : FtpEnv) (file : Option (List Nat))
    (parseZip : Except String (List ZipEntry)) (basePath : Option String) :
    ZipDeployResponse × List FtpEvent :=
  match file with
  | none =>
    (ZipDeployResponse.badRequest "No zip uploaded. Use field name 'zip'.",
     [FtpEvent.close])
  | some _buf =>
    let bp := basePath.getD "/htdocs"
    match env.connect with
    | some m => (ZipDeployResponse.failure m, [FtpEvent.connect, FtpEvent.close])
    | none =>
      match parseZip with
      | Except.error m =>
        (ZipDeployResponse.failure m, [FtpEvent.connect, FtpEvent.close])
      | Except.ok entries =>
        match uploadEntries env bp entries with
        | (t, some m) =>
          (ZipDeployResponse.failure m, FtpEvent.connect :: t ++ [FtpEvent.close])
        | (t, none) =>
          (ZipDeployResponse.ok entries.length,
           FtpEvent.connect :: t ++ [FtpEvent.close])

/-- An FTP environment in which every call succeeds. -/
def envOk : FtpEnv :=
  { connect := none, ensureDir := fun _ => none, upload := fun _ => none }

/-- Number of `close` calls in an FTP trace. -/
def countClose : List FtpEvent → Nat
  | [] => 0
  | FtpEvent.close :: rest => countClose rest + 1
  | _ :: rest => countClose rest

/-- Trace of FTP calls performed for one zip entry. -/
def entryTrace (env : FtpEnv) (basePath : String) (e : ZipEntry) : List FtpEvent :=
  (uploadBuffer env (remotePathOf basePath e.entryName) e.data).1

/-- Whether processing one zip entry fails in environment `env`. -/
def entryFails (env : FtpEnv) (basePath : String) (e : ZipEntry) : Bool :=
  (uploadBuffer env (remotePathOf basePath e.entryName) e.data).2.isSome

/-- The non-directory entries of an archive, in archive order. -/
def filesOf (l : List ZipEntry) : List ZipEntry :=
  l.filter (fun e => !e.isDirectory)

/-- The prefix of the entry sequence actually processed: everything up to
and including the first failing entry. -/
def takeThroughFirstFailure (env : FtpEnv) (basePath : String) :
    List ZipEntry → List ZipEntry
  | [] => []
  | e :: rest =>
    if entryFails env basePath e then [e]
    else e :: takeThroughFirstFailure env basePath rest

/-- Whether a string contains two consecutive forward slashes. -/
def hasDoubleSlash (s : String) : Bool :=
  (s.toList.zip s.toList.tail).any (fun p => p.1 = '/' && p.2 = '/')

/-! ## Theorems -/

/-- Claim C1. The code violates the claim: upload-zip responds with
`uploaded = entries.length`, which counts directory entries. For an archive
whose only entry is the directory `a/`, with every FTP call succeeding, the
response is `uploaded: 1` — not `uploaded: 0` — even though the trace shows
zero upload calls (only connect and close). -/
theorem c1_uploadZip_counts_directory_entries :
    uploadZipHandler envOk (some [])
        (Except.ok [{ entryName := "a/", isDirectory := true, data := [] }]) none
      = (ZipDeployResponse.ok 1, [FtpEvent.connect, FtpEvent.close]) := by
  decide

/-- Claim C2, counterexample. On a payload that fails to parse as an
archive (connect succeeding), the boundary status is 500, not 400, and the
trace already contains a connect call: the session is opened before the
parse failure is reported. -/
theorem c2_counterexample_parse_failure_after_connect :
    (uploadZipHandler envOk (some [])
        (Except.error "Invalid or unsupported zip format") none).1
      = ZipDeployResponse.failure "Invalid or unsupported zip format"
    ∧ ZipDeployResponse.status (uploadZipHandler envOk (some [])
        (Except.error "Invalid or unsupported zip format") none).1 = 500
    ∧ FtpEvent.connect ∈ (uploadZipHandler envOk (some [])
        (Except.error "Invalid or unsupported zip format") none).2 := by
  decide

/-- Claim C2, amended. When the payload fails to parse as an archive (and
the connect succeeded), the operation fails with boundary status 500
carrying the parse error message, and the transfer session has already been
opened before the failure is reported: the trace is exactly connect followed
by close. -/
theorem c2_amended_parse_failure_is_500_after_connect (env : FtpEnv)
    (buf : List Nat) (m : String) (basePath : Option String)
    (h : env.connect = none) :
    uploadZipHandler env (some buf) (Except.error m) basePath
      = (ZipDeployResponse.failure m, [FtpEvent.connect, FtpEvent.close])
    ∧ ZipDeployResponse.status
        (uploadZipHandler env (some buf) (Except.error m) basePath).1 = 500 := by
  simp [uploadZipHandler, h, ZipDeployResponse.status]

/-- Witness for `c2_amended_parse_failure_is_500_after_connect` at a
concrete input. -/
theorem c2_amended_parse_failure_is_500_after_connect_witness :
    uploadZipHandler envOk (some []) (Except.error "bad zip") none
      = (ZipDeployResponse.failure "bad zip", [FtpEvent.connect, FtpEvent.close])
    ∧ ZipDeployResponse.status
        (uploadZipHandler envOk (some []) (Except.error "bad zip") none).1 = 500 :=
  c2_amended_parse_failure_is_500_after_connect envOk [] "bad zip" none rfl

/-- Claim C3. The code violates the claim: on a successful write with the
branch omitted, the response's `branch` field is
`result.data.content?.path` — the committed file's path — not the store's
default branch. Here the file `index.html` is created on a repository whose
default branch would be `main`; the response reports `branch = "index.html"`. -/
theorem c3_branch_field_reports_path :
    putFileHandler "o" "r" "index.html" "c" "m" none
        (Except.error "Not Found") (Except.ok { contentPath := some "index.html" })
      = (PutResponse.success "index.html" (some "index.html"),
         some { owner := "o", repo := "r", path := "index.html", message := "m",
                content := "c", sha := none, branch := none })
    ∧ (some "index.html" : Option String) ≠ some "main" := by
  decide

/-- The probe block resolves to `some s` exactly when the store returned a
single file object with sha `s`: the clearing branch of line 71 never fires,
because an array owns no `sha` property. -/
theorem probeSha_eq (probe : Except String GetContentData) :
    probeSha probe = match probe with
      | Except.ok (GetContentData.fileObj s _) => some s
      | _ => none := by
  rcases probe with m | d
  · rfl
  · cases d <;> rfl

/-- Claim C4, counterexample. A probe failure that is not NotFound — here
`"Bad credentials"` — is not surfaced as a 500 UpstreamFailure: the catch
block swallows it, the write proceeds as a create (no sha), and the request
succeeds. -/
theorem c4_counterexample_probe_error_swallowed :
    putFileHandler "o" "r" "p" "c" "m" none
        (Except.error "Bad credentials") (Except.ok { contentPath := some "p" })
      = (PutResponse.success "p" (some "p"),
         some { owner := "o", repo := "r", path := "p", message := "m",
                content := "c", sha := none, branch := none })
    ∧ PutResponse.status (putFileHandler "o" "r" "p" "c" "m" none
        (Except.error "Bad credentials") (Except.ok { contentPath := some "p" })).1
      ≠ 500 := by
  decide

/-- Claim C4, amended. Every probe failure — NotFound or any other store
error — is caught and converted into "no version token": whatever the probe
error message, the submission carries `sha = none` and the boundary result
is determined solely by the commit outcome; no probe failure reaches the
caller. -/
theorem c4_amended_all_probe_errors_swallowed
    (owner repo path content message : String) (branch : Option String)
    (m : String) (commit : Except String CommitData)
    (h : ¬(owner = "" ∨ repo = "" ∨ path = "" ∨ content = "" ∨ message = "")) :
    putFileHandler owner repo path content message branch (Except.error m) commit
      = (match commit with
         | Except.error cm => (PutResponse.failure cm,
             some { owner := owner, repo := repo, path := path, message := message,
                    content := content, sha := none, branch := branch })
         | Except.ok result =>
           (PutResponse.success path (jsOr branch result.contentPath),
             some { owner := owner, repo := repo, path := path, message := message,
                    content := content, sha := none, branch := branch })) := by
  rcases commit with cm | result <;>
    simp [putFileHandler, h, putFileSubmission, probeSha]

/-- Witness for `c4_amended_all_probe_errors_swallowed` at a concrete
input. -/
theorem c4_amended_all_probe_errors_swallowed_witness :
    putFileHandler "o" "r" "p" "c" "m" none (Except.error "ECONNRESET")
        (Except.error "Validation Failed")
      = (PutResponse.failure "Validation Failed",
         some { owner := "o", repo := "r", path := "p", message := "m",
                content := "c", sha := none, branch := none }) :=
  c4_amended_all_probe_errors_swallowed "o" "r" "p" "c" "m" none
    "ECONNRESET" (Except.error "Validation Failed") (by decide)

/-- Claim C5, counterexample. A missing path (the store throws
`"Not Found"`) and any other store error (here `"Server Error"`) produce
boundary results of the same shape and the same status 500 — the generic
failure carrying the store's message — so NotFound is not a distinct,
distinguishable outcome at the boundary. -/
theorem c5_counterexample_notfound_same_shape :
    getFileHandler "o" "r" "p" none (Except.error "Not Found")
      = GetFileResponse.failure "Not Found"
    ∧ getFileHandler "o" "r" "p" none (Except.error "Server Error")
      = GetFileResponse.failure "Server Error"
    ∧ GetFileResponse.status
        (getFileHandler "o" "r" "p" none (Except.error "Not Found"))
      = GetFileResponse.status
        (getFileHandler "o" "r" "p" none (Except.error "Server Error")) := by
  decide

/-- Claim C5, amended. With the required fields present: every store-thrown
error — a missing path included — is surfaced uniformly as a 500 failure
carrying the store's message, and a path that resolves to a directory
listing is rejected as "Not a file" with status 400. A missing path is
distinguishable from other upstream failures only by the pass-through
message text, not by a distinct boundary status. -/
theorem c5_amended_error_mapping (owner repo path : String)
    (ref : Option String) (m : String) (l : List String)
    (h : ¬(owner = "" ∨ repo = "" ∨ path = "")) :
    getFileHandler owner repo path ref (Except.error m)
      = GetFileResponse.failure m
    ∧ GetFileResponse.status (getFileHandler owner repo path ref (Except.error m))
      = 500
    ∧ getFileHandler owner repo path ref
        (Except.ok (GetContentData.dirListing l))
      = GetFileResponse.badRequest "Not a file"
    ∧ GetFileResponse.status (getFileHandler owner repo path ref
        (Except.ok (GetContentData.dirListing l))) = 400 := by
  simp [getFileHandler, h, jsContentProp, GetFileResponse.status]

/-- Witness for `c5_amended_error_mapping` at a concrete input. -/
theorem c5_amended_error_mapping_witness :
    getFileHandler "o" "r" "p" none (Except.error "Not Found")
      = GetFileResponse.failure "Not Found"
    ∧ GetFileResponse.status
        (getFileHandler "o" "r" "p" none (Except.error "Not Found")) = 500
    ∧ getFileHandler "o" "r" "p" none
        (Except.ok (GetContentData.dirListing ["a", "b"]))
      = GetFileResponse.badRequest "Not a file"
    ∧ GetFileResponse.status (getFileHandler "o" "r" "p" none
        (Except.ok (GetContentData.dirListing ["a", "b"]))) = 400 :=
  c5_amended_error_mapping "o" "r" "p" none "Not Found" ["a", "b"] (by decide)

/-- Claim C6. With the required fields present, the submission to
create-or-update is exactly the one built by the handler, and it carries a
version token precisely when the existence probe resolved the target to a
single file object — the token then being exactly the sha that probe
observed; a probe that learned the file does not exist (or failed, or
resolved to a directory listing) yields no token. -/
theorem c6_sha_sent_iff_probe_file
    (owner repo path content message : String) (branch : Option String)
    (probe : Except String GetContentData) (commit : Except String CommitData)
    (h : ¬(owner = "" ∨ repo = "" ∨ path = "" ∨ content = "" ∨ message = "")) :
    (putFileHandler owner repo path content message branch probe commit).2
      = some (putFileSubmission owner repo path content message branch probe)
    ∧ (putFileSubmission owner repo path content message branch probe).sha
      = (match probe with
         | Except.ok (GetContentData.fileObj s _) => some s
         | _ => none) := by
  constructor
  · rcases commit with cm | result <;> simp [putFileHandler, h]
  · simpa [putFileSubmission] using probeSha_eq probe

/-- Witness for `c6_sha_sent_iff_probe_file` at a concrete input: a probe
that saw the file with sha `"abc123"` leads to a submission carrying exactly
that token. -/
theorem c6_sha_sent_iff_probe_file_witness :
    (putFileHandler "o" "r" "p" "c" "m" (some "main")
        (Except.ok (GetContentData.fileObj "abc123" "old"))
        (Except.ok { contentPath := some "p" })).2
      = some (putFileSubmission "o" "r" "p" "c" "m" (some "main")
          (Except.ok (GetContentData.fileObj "abc123" "old")))
    ∧ (putFileSubmission "o" "r" "p" "c" "m" (some "main")
        (Except.ok (GetContentData.fileObj "abc123" "old"))).sha
      = some "abc123" :=
  c6_sha_sent_iff_probe_file "o" "r" "p" "c" "m" (some "main")
    (Except.ok (GetContentData.fileObj "abc123" "old"))
    (Except.ok { contentPath := some "p" }) (by decide)

theorem countClose_append (s t : List FtpEvent) :
    countClose (s ++ t) = countClose s + countClose t := by
  induction s with
  | nil => simp [countClose]
  | cons a s ih => cases a <;> simp [countClose, ih] <;> omega

theorem countClose_uploadBuffer (env : FtpEnv) (r : String) (d : List Nat) :
    countClose (uploadBuffer env r d).1 = 0 := by
  rw [uploadBuffer]
  by_cases hd : (dirsOf r).isEmpty
  · simp [hd, countClose]
  · rcases h : env.ensureDir (dirPathOf r) with _ | m <;> simp [hd, h, countClose]

theorem countClose_uploadEntries (env : FtpEnv) (bp : String)
    (l : List ZipEntry) : countClose (uploadEntries env bp l).1 = 0 := by
  induction l with
  | nil => rfl
  | cons e rest ih =>
    rw [uploadEntries]
    by_cases hd : e.isDirectory
    · simpa [hd] using ih
    · have hub := countClose_uploadBuffer env (remotePathOf bp e.entryName) e.data
      rcases h : uploadBuffer env (remotePathOf bp e.entryName) e.data with ⟨t, _ | m⟩ <;>
        rw [h] at hub <;> simp [hd, h, countClose_append, hub, ih]

/-- Claim C7. For every environment and every request shape — missing
payload, connect failure, parse failure, mid-sequence upload failure, or
success — both deploy handlers issue exactly one `close` call on the
transfer session. -/
theorem c7_session_closed_exactly_once (env : FtpEnv)
    (file : Option (List Nat)) (remotePath basePath : Option String)
    (parseZip : Except String (List ZipEntry)) :
    countClose (uploadFtpHandler env file remotePath).2 = 1
    ∧ countClose (uploadZipHandler env file parseZip basePath).2 = 1 := by
  constructor
  · rcases file with _ | buf
    · rfl
    · rcases hc : env.connect with _ | m
      · have hub := countClose_uploadBuffer env (remotePath.getD "/htdocs/index.html") buf
        rcases h : uploadBuffer env (remotePath.getD "/htdocs/index.html") buf with ⟨t, _ | m⟩ <;>
          rw [h] at hub <;>
          simp [uploadFtpHandler, hc, h, countClose, countClose_append, hub]
      · simp [uploadFtpHandler, hc, countClose]
  · rcases file with _ | buf
    · rfl
    · rcases hc : env.connect with _ | m
      · rcases parseZip with m | entries
        · simp [uploadZipHandler, hc, countClose]
        · have hue := countClose_uploadEntries env (basePath.getD "/htdocs") entries
          rcases h : uploadEntries env (basePath.getD "/htdocs") entries with ⟨t, _ | m⟩ <;>
            rw [h] at hue <;>
            simp [uploadZipHandler, hc, h, countClose, countClose_append, hue]
      · simp [uploadZipHandler, hc, countClose]

/-- Claim C8, counterexample. The computed remote path can contain a double
slash: a base path with a trailing slash — here `"/htdocs/"` with entry
`"a.txt"` — yields `"/htdocs//a.txt"`, so "producing no double slashes" does
not hold for every base path. -/
theorem c8_counterexample_double_slash :
    remotePathOf "/htdocs/" "a.txt" = "/htdocs//a.txt"
    ∧ hasDoubleSlash (remotePathOf "/htdocs/" "a.txt") = true := by
  decide

theorem stripLeadingSlashes_no_leading (s : String) :
    (stripLeadingSlashes s).toList.head? ≠ some '/' := by
  have key : ∀ l : List Char,
      ((l.dropWhile (fun c => c = '/')).head? ≠ some '/') := by
    intro l
    induction l with
    | nil => simp
    | cons a l ih =>
      by_cases h : a = '/'
      · simpa [List.dropWhile_cons, h] using ih
      · simp [List.dropWhile_cons, h]
  exact key s.toList

/-- Claim C8, amended. The computed remote path is exactly the base path,
one joining slash, and the entry path with every leading slash stripped;
the stripped entry path never begins with a slash, so the join point itself
introduces no double slash, and entry `"/x/y.txt"` with base `"/htdocs"`
yields exactly `"/htdocs/x/y.txt"` — but a base path that itself ends in a
slash (or internal double slashes) can still produce double slashes. -/
theorem c8_amended_normalization (basePath entryName : String) :
    remotePathOf basePath entryName
      = basePath ++ "/" ++ stripLeadingSlashes entryName
    ∧ (stripLeadingSlashes entryName).toList.head? ≠ some '/'
    ∧ remotePathOf "/htdocs" "/x/y.txt" = "/htdocs/x/y.txt" := by
  exact ⟨rfl, stripLeadingSlashes_no_leading entryName, by decide⟩

/-- Claim C9. First conjunct: the upload-zip loop's FTP trace is exactly
the per-entry traces of the non-directory entries, whole and in archive
order, cut off after the first failing entry — entry `i+1` contributes
nothing before entry `i`'s trace is complete, and nothing at all after a
failure. Second conjunct: within one entry, the `ensureDir` covering every
intermediate directory of the remote path is issued strictly before the
upload (and there is no `ensureDir` when the path has no parent
components); a directory-creation failure prevents that entry's upload. -/
theorem c9_order_dirs_before_upload_abort (env : FtpEnv) (basePath : String)
    (l : List ZipEntry) :
    (uploadEntries env basePath l).1
      = ((takeThroughFirstFailure env basePath (filesOf l)).map
          (entryTrace env basePath)).flatten
    ∧ (∀ r d, (uploadBuffer env r d).1
        = if (dirsOf r).isEmpty then [FtpEvent.upload r]
          else FtpEvent.ensureDir (dirPathOf r) ::
            (if env.ensureDir (dirPathOf r) = none then [FtpEvent.upload r]
             else [])) := by
  constructor
  · induction l with
    | nil => rfl
    | cons e rest ih =>
      rw [uploadEntries]
      by_cases hd : e.isDirectory
      · simpa [hd, filesOf, List.filter_cons, hd] using ih
      · rcases h : uploadBuffer env (remotePathOf basePath e.entryName) e.data with ⟨t, _ | m⟩
        · have hf : entryFails env basePath e = false := by
            simp [entryFails, h]
          simp [hd, h, filesOf, List.filter_cons, takeThroughFirstFailure, hf,
            entryTrace, ih]
        · have hf : entryFails env basePath e = true := by
            simp [entryFails, h]
          simp [hd, h, filesOf, List.filter_cons, takeThroughFirstFailure, hf,
            entryTrace]
  · intro r d
    rw [uploadBuffer]
    by_cases hd : (dirsOf r).isEmpty
    · simp [hd]
    · rcases h : env.ensureDir (dirPathOf r) with _ | m <;> simp [hd, h]

/-- Claim C10. Omitting the optional remote path makes upload-ftp behave
exactly as if `"/htdocs/index.html"` had been passed (and with every FTP
call succeeding it reports that path as uploaded); omitting the optional
base path makes upload-zip behave exactly as if `"/htdocs"` had been
passed. -/
theorem c10_default_paths (env : FtpEnv) (buf : List Nat)
    (file : Option (List Nat)) (parseZip : Except String (List ZipEntry)) :
    uploadFtpHandler env (some buf) none
      = uploadFtpHandler env (some buf) (some "/htdocs/index.html")
    ∧ uploadZipHandler env file parseZip none
      = uploadZipHandler env file parseZip (some "/htdocs")
    ∧ (uploadFtpHandler envOk (some buf) none).1
      = SingleDeployResponse.ok "/htdocs/index.html" := by
  refine ⟨rfl, rfl, ?_⟩
  rfl

end WebsiteBuddyActions
